import Mathlib

/-!
Verification of the BerryDB free-page list (`src/free_page_list.cc`).

The shallow embedding below translates `FreePageList::Pop`, `FreePageList::Push`
and `FreePageList::Merge` into Lean. Pages are byte lists; the page pool is a
map from page id to either the page's bytes or a fetch-failure status; machine
integers are `Nat` with explicit `% 2^W` where the C++ code truncates (`W` is
the bit width of `size_t`, 64 on the usual build).

Two pieces of instrumentation make implicit behaviour of the C++ observable:
- every operation also returns the list of `(page_id, fetch mode)` pairs it
  requested from the page pool, mirroring the `PagePool::StorePage` calls;
- every variable-offset byte access (`span::subspan(offset, n)`) is guarded by
  an explicit bounds check against the page size, mirroring the debug `CHECK`
  inside `span`; an access that the C++ span would reject (undefined behaviour
  in release builds) surfaces as the model-only status `kOutOfBoundsAccess`.
-/

namespace BerryDb

/-- Status codes from `berrydb/status.h` that `free_page_list.cc` can produce or
propagate, plus `kOutOfBoundsAccess`, a model-only marker for a byte access that
the C++ `span` bounds `CHECK` would reject (undefined behaviour in release). -/
inductive Status where
  | kSuccess
  | kIoError
  | kPoolFull
  | kDataCorrupted
  | kDatabaseTooLarge
  | kOutOfBoundsAccess
deriving DecidableEq

/-- The two `PagePool::StorePage` fetch modes used by `free_page_list.cc`. -/
inductive FetchMode where
  | kFetchPageData
  | kIgnorePageData
deriving DecidableEq

/-- A page's bytes. Each element is a byte; reads reduce values `% 256`. -/
abbrev PageBytes := List Nat

/-- The page pool / backing store: for each page id, either the page's current
bytes or the status with which fetching the page fails. -/
def PageStore := Nat → Except Status PageBytes

/-- Writing one page's bytes back into the pool. -/
def setPage (s : PageStore) (id : Nat) (d : PageBytes) : PageStore :=
  fun i => if i = id then Except.ok d else s i

/-- Current bytes of a pinned page (the pool's buffer for that id). -/
def getPage (s : PageStore) (id : Nat) : PageBytes :=
  match s id with
  | Except.ok d => d
  | Except.error _ => []

/-- Byte read with the 8-bit truncation of real memory. -/
def byteAt (p : PageBytes) (i : Nat) : Nat := p.getD i 0 % 256

/-- `LoadUint64`: little-endian 64-bit load at byte offset `off`. -/
def loadUint64 (p : PageBytes) (off : Nat) : Nat :=
  byteAt p off +
    256 * (byteAt p (off + 1) +
      256 * (byteAt p (off + 2) +
        256 * (byteAt p (off + 3) +
          256 * (byteAt p (off + 4) +
            256 * (byteAt p (off + 5) +
              256 * (byteAt p (off + 6) +
                256 * byteAt p (off + 7)))))))

/-- `StoreUint64`: little-endian 64-bit store at byte offset `off`. -/
def storeUint64 (v : Nat) (p : PageBytes) (off : Nat) : PageBytes :=
  let p := p.set off (v % 256)
  let p := p.set (off + 1) (v / 256 % 256)
  let p := p.set (off + 2) (v / 256 ^ 2 % 256)
  let p := p.set (off + 3) (v / 256 ^ 3 % 256)
  let p := p.set (off + 4) (v / 256 ^ 4 % 256)
  let p := p.set (off + 5) (v / 256 ^ 5 % 256)
  let p := p.set (off + 6) (v / 256 ^ 6 % 256)
  p.set (off + 7) (v / 256 ^ 7 % 256)

/-- `CopySpan(src.subspan(srcOff, len), dst.subspan(dstOff, len))`:
byte-by-byte copy of `len` bytes. -/
def copySpan (src : PageBytes) : Nat → PageBytes → Nat → Nat → PageBytes
  | _, dst, _, 0 => dst
  | srcOff, dst, dstOff, len + 1 =>
      copySpan src (srcOff + 1) (dst.set dstOff (byteAt src srcOff)) (dstOff + 1) len

/-- Modelled from the spec: `free_page_list_format.h` is not under `src/`.
Entry size of the free-page-list page format (8 bytes per stored page id). -/
def kEntrySize : Nat := 8

/-- Modelled from the spec: `free_page_list_format.h` is not under `src/`.
First entry offset = header size: an 8-byte `next_page_id` followed by the
fixed-width `next_entry_offset` field (the spec's scenario uses a 16-byte
header with 8-byte entries). -/
def kFirstEntryOffset : Nat := 16

/-- Modelled from the spec: `FreePageListFormat::NextPageId64`, the 64-bit id
of the next page in the chain, stored in the first 8 header bytes. -/
def NextPageId64 (p : PageBytes) : Nat := loadUint64 p 0

/-- Modelled from the spec: `FreePageListFormat::SetNextPageId64`. -/
def SetNextPageId64 (v : Nat) (p : PageBytes) : PageBytes := storeUint64 v p 0

/-- Modelled from the spec: `FreePageListFormat::NextEntryOffset`, the byte
offset of the next free entry slot, stored in header bytes 8..16 and read back
into a `size_t` (width `W`). -/
def NextEntryOffset (W : Nat) (p : PageBytes) : Nat := loadUint64 p 8 % 2 ^ W

/-- Modelled from the spec: `FreePageListFormat::SetNextEntryOffset`. -/
def SetNextEntryOffset (offset : Nat) (p : PageBytes) : PageBytes :=
  storeUint64 offset p 8

/-- Modelled from the spec: `FreePageListFormat::IsCorruptEntryOffset` — true
unless `offset` lies in `[kFirstEntryOffset, page_size]` and is reachable from
the header by whole entries. -/
def IsCorruptEntryOffset (offset pageSize : Nat) : Bool :=
  decide (offset < kFirstEntryOffset) || decide (pageSize < offset) ||
    decide ((offset - kFirstEntryOffset) % kEntrySize ≠ 0)

/-- `FreePageList::kInvalidPageId`: the maximum representable `size_t` value. -/
def kInvalidPageId (W : Nat) : Nat := 2 ^ W - 1

/-- The in-memory `FreePageList` handle. -/
structure FreePageList where
  head_page_id_ : Nat
  tail_page_id_ : Nat
  tail_page_is_defined_ : Bool
  was_merged_ : Bool
deriving DecidableEq

/-- `FreePageList::is_empty()`. -/
def FreePageList.is_empty (W : Nat) (l : FreePageList) : Bool :=
  decide (l.head_page_id_ = kInvalidPageId W)

/-- The `size_t` decrement `next_entry_offset -= kEntrySize` (wraps mod `2^W`). -/
def popDecrement (W o : Nat) : Nat := (o + (2 ^ W - kEntrySize)) % 2 ^ W

/-- Result of `FreePageList::Pop`: the returned status and page id, the handle
and page-pool state after the call, and the log of page fetches performed. -/
structure PopResult where
  status : Status
  pageId : Nat
  list : FreePageList
  store : PageStore
  fetched : List (Nat × FetchMode)

/-- Result of `FreePageList::Push`. -/
structure PushResult where
  status : Status
  list : FreePageList
  store : PageStore
  fetched : List (Nat × FetchMode)

/-- Result of `FreePageList::Merge` (`self` is the destination `this` list). -/
structure MergeResult where
  status : Status
  self : FreePageList
  other : FreePageList
  store : PageStore
  fetched : List (Nat × FetchMode)

/-- `FreePageList::Pop` (free_page_list.cc lines 19-90), translated line by
line. `W` is the `size_t` bit width; `pageSize` is `page_pool->page_size()`. -/
def Pop (W pageSize : Nat) (l : FreePageList) (s : PageStore) : PopResult :=
  if l.head_page_id_ = kInvalidPageId W then
    ⟨Status.kSuccess, kInvalidPageId W, l, s, []⟩
  else
    match s l.head_page_id_ with
    | Except.error e =>
        ⟨e, kInvalidPageId W, l, s, [(l.head_page_id_, FetchMode.kFetchPageData)]⟩
    | Except.ok head_page_data =>
        let fetched := [(l.head_page_id_, FetchMode.kFetchPageData)]
        let next_entry_offset := NextEntryOffset W head_page_data
        if next_entry_offset = kFirstEntryOffset then
          -- All the entries on the head page have been removed. The head page
          -- itself can be used as a free page.
          let new_head_page_id64 := NextPageId64 head_page_data
          let new_head_page_id := new_head_page_id64 % 2 ^ W
          if new_head_page_id ≠ new_head_page_id64 then
            ⟨Status.kDatabaseTooLarge, kInvalidPageId W, l, s, fetched⟩
          else
            let free_page_id := l.head_page_id_
            let l' : FreePageList :=
              { l with
                head_page_id_ := new_head_page_id
                tail_page_id_ :=
                  if new_head_page_id = kInvalidPageId W then kInvalidPageId W
                  else l.tail_page_id_ }
            ⟨Status.kSuccess, free_page_id, l', s, fetched⟩
        else
          let next_entry_offset := popDecrement W next_entry_offset
          if IsCorruptEntryOffset next_entry_offset pageSize then
            ⟨Status.kDataCorrupted, kInvalidPageId W, l, s, fetched⟩
          else if next_entry_offset + 8 ≤ pageSize then
            let free_page_id64 := loadUint64 head_page_data next_entry_offset
            let free_page_id := free_page_id64 % 2 ^ W
            if free_page_id ≠ free_page_id64 then
              ⟨Status.kDatabaseTooLarge, kInvalidPageId W, l, s, fetched⟩
            else
              ⟨Status.kSuccess, free_page_id, l,
               setPage s l.head_page_id_
                 (SetNextEntryOffset next_entry_offset head_page_data),
               fetched⟩
          else
            ⟨Status.kOutOfBoundsAccess, kInvalidPageId W, l, s, fetched⟩

/-- Fall-through path of `FreePageList::Push` (lines 139-172): the pushed page
is repurposed as the new head page; its prior content is not loaded
(`kIgnorePageData`), its header is initialized, and the handle is updated. -/
def pushNewHead (W : Nat) (l : FreePageList) (s : PageStore) (page_id : Nat)
    (fetched : List (Nat × FetchMode)) : PushResult :=
  match s page_id with
  | Except.error e => ⟨e, l, s, fetched ++ [(page_id, FetchMode.kIgnorePageData)]⟩
  | Except.ok buffer =>
      let head_page_data := SetNextEntryOffset kFirstEntryOffset buffer
      let head_page_data := SetNextPageId64 l.head_page_id_ head_page_data
      let l' : FreePageList :=
        { l with
          tail_page_id_ :=
            if l.head_page_id_ = kInvalidPageId W then page_id else l.tail_page_id_
          head_page_id_ := page_id }
      ⟨Status.kSuccess, l', setPage s page_id head_page_data,
       fetched ++ [(page_id, FetchMode.kIgnorePageData)]⟩

/-- `FreePageList::Push` (free_page_list.cc lines 92-173), translated line by
line. -/
def Push (W pageSize : Nat) (l : FreePageList) (s : PageStore) (page_id : Nat) :
    PushResult :=
  if l.head_page_id_ ≠ kInvalidPageId W then
    match s l.head_page_id_ with
    | Except.error e => ⟨e, l, s, [(l.head_page_id_, FetchMode.kFetchPageData)]⟩
    | Except.ok head_page_data =>
        let fetched := [(l.head_page_id_, FetchMode.kFetchPageData)]
        let next_entry_offset := NextEntryOffset W head_page_data
        if next_entry_offset < pageSize then
          if IsCorruptEntryOffset next_entry_offset pageSize then
            ⟨Status.kDataCorrupted, l, s, fetched⟩
          else if next_entry_offset + 8 ≤ pageSize then
            -- There's room for another entry in the page.
            let head_page_data := storeUint64 page_id head_page_data next_entry_offset
            let next_entry_offset := next_entry_offset + kEntrySize
            ⟨Status.kSuccess, l,
             setPage s l.head_page_id_
               (SetNextEntryOffset next_entry_offset head_page_data),
             fetched⟩
          else
            ⟨Status.kOutOfBoundsAccess, l, s, fetched⟩
        else
          -- The current page is full.
          pushNewHead W l s page_id fetched
  else
    pushNewHead W l s page_id []

/-- Step 2 of `FreePageList::Merge` (lines 256-324): merging the two head
pages. Reads go through the pool's current buffers (`getPage`), so aliased
pins behave like the shared C++ buffers. `full_chain_head_id64` is the chain
head computed by step 1; the C++ code never writes it to any page. -/
def mergeHeads (W pageSize : Nat) (l other : FreePageList) (s : PageStore)
    (fetched : List (Nat × FetchMode)) (full_chain_head_id64 : Nat) :
    Status × PageStore × List (Nat × FetchMode) :=
  let head_page_data := getPage s l.head_page_id_
  let other_head_page_data := getPage s other.head_page_id_
  let next_entry_offset := NextEntryOffset W head_page_data
  let other_next_entry_offset := NextEntryOffset W other_head_page_data
  if IsCorruptEntryOffset next_entry_offset pageSize ||
      IsCorruptEntryOffset other_next_entry_offset pageSize then
    (Status.kDataCorrupted, s, fetched)
  else
    -- Unused after this point in both cases below, exactly as in the C++ code.
    let _ := full_chain_head_id64
    let needed_space_minus_one_entry := other_next_entry_offset - kFirstEntryOffset
    if next_entry_offset + needed_space_minus_one_entry < pageSize then
      -- Case A: this list's head page has enough room for all the IDs.
      if next_entry_offset + 8 ≤ pageSize then
        let s := setPage s l.head_page_id_
          (storeUint64 other.head_page_id_ (getPage s l.head_page_id_)
            next_entry_offset)
        let next_entry_offset := next_entry_offset + kEntrySize
        if kFirstEntryOffset + needed_space_minus_one_entry ≤ pageSize ∧
            next_entry_offset + needed_space_minus_one_entry ≤ pageSize then
          let s := setPage s l.head_page_id_
            (copySpan (getPage s other.head_page_id_) kFirstEntryOffset
              (getPage s l.head_page_id_) next_entry_offset
              needed_space_minus_one_entry)
          let next_entry_offset := next_entry_offset + needed_space_minus_one_entry
          (Status.kSuccess,
           setPage s l.head_page_id_
             (SetNextEntryOffset next_entry_offset (getPage s l.head_page_id_)),
           fetched)
        else (Status.kOutOfBoundsAccess, s, fetched)
      else (Status.kOutOfBoundsAccess, s, fetched)
    else
      -- Case B: move IDs from this list's head page to fill up the other
      -- list's head page, then chain the other list's head page to this
      -- list's head page.
      let empty_space := pageSize - other_next_entry_offset
      let new_next_entry_offset := next_entry_offset - empty_space
      if new_next_entry_offset + empty_space ≤ pageSize ∧
          other_next_entry_offset + empty_space ≤ pageSize then
        let s := setPage s other.head_page_id_
          (copySpan (getPage s l.head_page_id_) new_next_entry_offset
            (getPage s other.head_page_id_) other_next_entry_offset empty_space)
        let s := setPage s other.head_page_id_
          (SetNextEntryOffset pageSize (getPage s other.head_page_id_))
        let s := setPage s l.head_page_id_
          (SetNextPageId64 other.head_page_id_ (getPage s l.head_page_id_))
        (Status.kSuccess,
         setPage s l.head_page_id_
           (SetNextEntryOffset new_next_entry_offset (getPage s l.head_page_id_)),
         fetched)
      else (Status.kOutOfBoundsAccess, s, fetched)

/-- Branching body of `FreePageList::Merge` (free_page_list.cc lines 175-325),
translated line by line; returns the status, the page pool after the call, and
the fetch log. `other` is the source handle with `was_merged_` already set. -/
def mergeCore (W pageSize : Nat) (l other : FreePageList) (s : PageStore) :
    Status × PageStore × List (Nat × FetchMode) :=
  if other.head_page_id_ = kInvalidPageId W then
    (Status.kSuccess, s, [])
  else
    match s l.head_page_id_ with
    | Except.error e =>
        (e, s, [(l.head_page_id_, FetchMode.kFetchPageData)])
    | Except.ok head_page_data =>
        match s other.head_page_id_ with
        | Except.error e =>
            (e, s,
             [(l.head_page_id_, FetchMode.kFetchPageData),
              (other.head_page_id_, FetchMode.kFetchPageData)])
        | Except.ok _other_head_page_data =>
            let fetched :=
              [(l.head_page_id_, FetchMode.kFetchPageData),
               (other.head_page_id_, FetchMode.kFetchPageData)]
            -- Step 1: build a chain out of the full pages.
            let full_chain_head_id64 := NextPageId64 head_page_data
            if other.tail_page_id_ ≠ other.head_page_id_ then
              match s other.tail_page_id_ with
              | Except.error e =>
                  (e, s,
                   fetched ++ [(other.tail_page_id_, FetchMode.kFetchPageData)])
              | Except.ok other_tail_page_data =>
                  -- Prepend the other list's full pages to this list's full
                  -- pages by linking the other list's tail to them.
                  let s := setPage s other.tail_page_id_
                    (SetNextPageId64 full_chain_head_id64 other_tail_page_data)
                  -- The chain's head is now the other list's second page.
                  let full_chain_head_id64 :=
                    NextPageId64 (getPage s other.head_page_id_)
                  mergeHeads W pageSize l other s
                    (fetched ++ [(other.tail_page_id_, FetchMode.kFetchPageData)])
                    full_chain_head_id64
            else
              mergeHeads W pageSize l other s fetched full_chain_head_id64

/-- `FreePageList::Merge`, assembled. The C++ method returns only a `Status`
and mutates pages through the pool: it writes no field of `this`'s handle and
writes only the `was_merged_` lifecycle flag of `other`'s handle (set on
entry, before the empty check), so the two handles of the result are fixed
here, outside the branching core. -/
def Merge (W pageSize : Nat) (l other0 : FreePageList) (s : PageStore) :
    MergeResult :=
  let other : FreePageList := { other0 with was_merged_ := true }
  let core := mergeCore W pageSize l other s
  ⟨core.1, l, other, core.2.1, core.2.2⟩

/-- Fully popping a list with the given fuel: `some ids` when the list drains
to empty within `fuel` successful pops, `none` on any error or fuel exhaustion. -/
def drainIds (W pageSize : Nat) : Nat → FreePageList → PageStore → Option (List Nat)
  | 0, l, _ => if l.head_page_id_ = kInvalidPageId W then some [] else none
  | fuel + 1, l, s =>
      if l.head_page_id_ = kInvalidPageId W then some []
      else
        let r := Pop W pageSize l s
        if r.status = Status.kSuccess then
          match drainIds W pageSize fuel r.list r.store with
          | some ids => some (r.pageId :: ids)
          | none => none
        else none

/-- Little-endian byte encoding of a 64-bit value, for building test pages. -/
def u64le (v : Nat) : List Nat :=
  [v % 256, v / 256 % 256, v / 256 ^ 2 % 256, v / 256 ^ 3 % 256,
   v / 256 ^ 4 % 256, v / 256 ^ 5 % 256, v / 256 ^ 6 % 256, v / 256 ^ 7 % 256]

/-- A list page with the given successor id, next-entry offset and packed
entries, zero-padded to `pageSize` bytes. -/
def mkPage (pageSize nextId offset : Nat) (entries : List Nat) : PageBytes :=
  let body := u64le nextId ++ u64le offset ++
    (entries.map u64le).foldr (fun a b => a ++ b) []
  body ++ List.replicate (pageSize - body.length) 0

/-! ### Concrete fixtures (page size 32 = 16-byte header + 2 entries/page) -/

/-- A single-page destination list: head = tail = page 2. -/
def exThis : FreePageList := ⟨2, 2, true, false⟩

/-- A two-page tail-tracked source list: head page 3, tail page 4. -/
def exOther : FreePageList := ⟨3, 4, true, false⟩

/-- Pool for the merge-conservation scenario: page 2 is `exThis`'s empty head;
page 3 is `exOther`'s head holding entry 9 with successor page 4; page 4 is
`exOther`'s full tail holding entries 7 and 8. -/
def exStore : PageStore := fun i =>
  if i = 2 then Except.ok (mkPage 32 (kInvalidPageId 64) 16 [])
  else if i = 3 then Except.ok (mkPage 32 4 24 [9])
  else if i = 4 then Except.ok (mkPage 32 (kInvalidPageId 64) 32 [7, 8])
  else Except.error Status.kIoError

/-- Pool whose page 2 stores the out-of-range `next_entry_offset` 40
(= page size 32 + one entry size); page 5 is an ordinary free page. -/
def exStoreOffset40 : PageStore := fun i =>
  if i = 2 then Except.ok (mkPage 32 (kInvalidPageId 64) 40 [])
  else if i = 5 then Except.ok (mkPage 32 (kInvalidPageId 64) 16 [])
  else Except.error Status.kIoError

/-- Pool where every fetch succeeds; page 2 stores the unaligned
`next_entry_offset` 17. -/
def exStoreOffset17 : PageStore := fun i =>
  if i = 2 then Except.ok (mkPage 32 (kInvalidPageId 64) 17 [])
  else Except.ok (mkPage 32 (kInvalidPageId 64) 16 [])

/-- Pool whose page 2 is a head page with one entry (the id 7) at offset 16. -/
def exStorePop : PageStore := fun i =>
  if i = 2 then Except.ok (mkPage 32 (kInvalidPageId 64) 24 [7])
  else Except.error Status.kIoError

/-- Pool with the one-entry head page 2 and an ordinary free page 5. -/
def exStorePush : PageStore := fun i =>
  if i = 2 then Except.ok (mkPage 32 (kInvalidPageId 64) 24 [7])
  else if i = 5 then Except.ok (mkPage 32 0 0 [])
  else Except.error Status.kIoError

/-- Pool whose page 2 has zero entries and a stored successor id `2^40`,
which does not fit a 32-bit `size_t`. -/
def exStoreWide : PageStore := fun i =>
  if i = 2 then Except.ok (mkPage 32 (2 ^ 40) 16 [])
  else Except.error Status.kIoError

/-- A pool where every fetch fails with an I/O error. -/
def exStoreErr : PageStore := fun _ => Except.error Status.kIoError

/-- Pool for the merge-with-corrupt-tail scenario: pages 2 (empty head of
`exThis`) and 3 (head of `exOther`, entry 9, successor 4) are well-formed,
but page 4 — `exOther`'s tail — stores the unaligned `next_entry_offset` 17. -/
def exStoreCorruptTail : PageStore := fun i =>
  if i = 2 then Except.ok (mkPage 32 (kInvalidPageId 64) 16 [])
  else if i = 3 then Except.ok (mkPage 32 4 24 [9])
  else if i = 4 then Except.ok (mkPage 32 (kInvalidPageId 64) 17 [])
  else Except.error Status.kIoError

/-! ### Helper lemmas -/

/-- A 64-bit load always fits in 64 bits. -/
theorem loadUint64_lt_two_pow_64 (p : PageBytes) (off : Nat) :
    loadUint64 p off < 2 ^ 64 := by
  unfold loadUint64 byteAt
  have h0 := Nat.mod_lt (p.getD off 0) (show 0 < 256 by norm_num)
  have h1 := Nat.mod_lt (p.getD (off + 1) 0) (show 0 < 256 by norm_num)
  have h2 := Nat.mod_lt (p.getD (off + 2) 0) (show 0 < 256 by norm_num)
  have h3 := Nat.mod_lt (p.getD (off + 3) 0) (show 0 < 256 by norm_num)
  have h4 := Nat.mod_lt (p.getD (off + 4) 0) (show 0 < 256 by norm_num)
  have h5 := Nat.mod_lt (p.getD (off + 5) 0) (show 0 < 256 by norm_num)
  have h6 := Nat.mod_lt (p.getD (off + 6) 0) (show 0 < 256 by norm_num)
  have h7 := Nat.mod_lt (p.getD (off + 7) 0) (show 0 < 256 by norm_num)
  have hp : (2 : Nat) ^ 64 = 18446744073709551616 := by norm_num
  rw [hp]
  omega

/-- The `size_t` decrement of a representable offset at `W = 64` is plain
subtraction. -/
theorem popDecrement_64_eq (o : Nat) (h8 : 8 ≤ o) (hlt : o < 2 ^ 64) :
    popDecrement 64 o = o - 8 := by
  unfold popDecrement kEntrySize
  have hp : (2 : Nat) ^ 64 = 18446744073709551616 := by norm_num
  rw [hp] at hlt ⊢
  omega

/-- Decrementing an offset below the entry size wraps around to a value far
beyond any page size, which the validation rejects. -/
theorem popDecrement_64_corrupt (o pageSize : Nat) (h : o < 8)
    (hbig : pageSize + 16 < 2 ^ 64) :
    IsCorruptEntryOffset (popDecrement 64 o) pageSize = true := by
  unfold IsCorruptEntryOffset popDecrement kEntrySize kFirstEntryOffset
  have hp : (2 : Nat) ^ 64 = 18446744073709551616 := by norm_num
  rw [hp] at hbig ⊢
  simp only [Bool.or_eq_true, decide_eq_true_eq]
  omega

/-- Unfolding of the offset validation, negative form. -/
theorem isCorrupt_false_iff (off ps : Nat) :
    IsCorruptEntryOffset off ps = false ↔
      (16 ≤ off ∧ off ≤ ps ∧ (off - 16) % 8 = 0) := by
  unfold IsCorruptEntryOffset kFirstEntryOffset kEntrySize
  simp only [Bool.or_eq_false_iff, decide_eq_false_iff_not, Nat.not_lt, ne_eq,
    Decidable.not_not]
  omega

/-- Unfolding of the offset validation, positive form. -/
theorem isCorrupt_true_iff (off ps : Nat) :
    IsCorruptEntryOffset off ps = true ↔
      (off < 16 ∨ ps < off ∨ (off - 16) % 8 ≠ 0) := by
  unfold IsCorruptEntryOffset kFirstEntryOffset kEntrySize
  simp only [Bool.or_eq_true, decide_eq_true_eq]
  exact or_assoc

/-- An offset loaded into a 64-bit `size_t` is below `2^64`. -/
theorem nextEntryOffset_lt (p : PageBytes) : NextEntryOffset 64 p < 2 ^ 64 := by
  unfold NextEntryOffset
  exact Nat.mod_lt _ (by norm_num)

/-- A corrupt stored offset other than `page_size + kEntrySize` stays corrupt
after the entry-size decrement. -/
theorem corrupt_decrement (o ps : Nat) (h8 : 8 ∣ ps)
    (hbig : ps + 16 < 2 ^ 64) (holt : o < 2 ^ 64)
    (hcor : IsCorruptEntryOffset o ps = true) (hne : o ≠ ps + 8) :
    IsCorruptEntryOffset (popDecrement 64 o) ps = true := by
  by_cases h8o : 8 ≤ o
  · rw [popDecrement_64_eq o h8o holt]
    rw [isCorrupt_true_iff] at hcor ⊢
    omega
  · exact popDecrement_64_corrupt o ps (by omega) hbig

/-- `List.getD` at an index other than the one just set. -/
theorem getD_set_ne (l : List Nat) (i j a : Nat) (h : i ≠ j) :
    (l.set i a).getD j 0 = l.getD j 0 := by
  simp [List.getD_eq_getElem?_getD, List.getElem?_set_ne h]

/-- Reading a pool buffer after a successful fetch. -/
theorem getPage_eq (s : PageStore) (id : Nat) (p : PageBytes)
    (h : s id = Except.ok p) : getPage s id = p := by
  unfold getPage
  rw [h]

/-- Reading back the page just written. -/
theorem getPage_setPage_eq (s : PageStore) (id : Nat) (d : PageBytes) :
    getPage (setPage s id d) id = d := by
  unfold getPage setPage
  rw [if_pos rfl]

/-- Writing one page leaves every other pool buffer unchanged. -/
theorem getPage_setPage_ne (s : PageStore) (id : Nat) (d : PageBytes) (j : Nat)
    (h : j ≠ id) : getPage (setPage s id d) j = getPage s j := by
  unfold getPage setPage
  rw [if_neg h]

/-- The bytes 8..16 of a page are untouched by a 64-bit store at offset 0. -/
theorem loadUint64_storeUint64_header (v : Nat) (p : PageBytes) :
    loadUint64 (storeUint64 v p 0) 8 = loadUint64 p 8 := by
  unfold storeUint64 loadUint64 byteAt
  dsimp only
  norm_num [getD_set_ne]

/-- The `next_entry_offset` header field (bytes 8..16) is untouched by a
`next_page_id` store (bytes 0..8). -/
theorem nextEntryOffset_setNextPageId64 (W v : Nat) (p : PageBytes) :
    NextEntryOffset W (SetNextPageId64 v p) = NextEntryOffset W p := by
  unfold NextEntryOffset SetNextPageId64
  rw [loadUint64_storeUint64_header]

/-- `Pop` evaluation: head-page fetch failure. -/
theorem pop_eval_headFetchError (W pageSize : Nat) (l : FreePageList)
    (s : PageStore) (e : Status) (hne : l.head_page_id_ ≠ kInvalidPageId W)
    (he : s l.head_page_id_ = Except.error e) :
    Pop W pageSize l s =
      ⟨e, kInvalidPageId W, l, s, [(l.head_page_id_, FetchMode.kFetchPageData)]⟩ := by
  unfold Pop
  rw [if_neg hne, he]

/-- `Pop` evaluation: the decremented offset fails validation. -/
theorem pop_eval_corrupt (W pageSize : Nat) (l : FreePageList) (s : PageStore)
    (page : PageBytes) (hne : l.head_page_id_ ≠ kInvalidPageId W)
    (hfetch : s l.head_page_id_ = Except.ok page)
    (h16 : NextEntryOffset W page ≠ kFirstEntryOffset)
    (hc : IsCorruptEntryOffset (popDecrement W (NextEntryOffset W page)) pageSize = true) :
    Pop W pageSize l s =
      ⟨Status.kDataCorrupted, kInvalidPageId W, l, s,
       [(l.head_page_id_, FetchMode.kFetchPageData)]⟩ := by
  unfold Pop
  rw [if_neg hne, hfetch]
  dsimp only
  rw [if_neg h16, if_pos hc]

/-- `Pop` evaluation: the decremented offset passes validation but the 8-byte
entry read would run past the page. -/
theorem pop_eval_oob (W pageSize : Nat) (l : FreePageList) (s : PageStore)
    (page : PageBytes) (hne : l.head_page_id_ ≠ kInvalidPageId W)
    (hfetch : s l.head_page_id_ = Except.ok page)
    (h16 : NextEntryOffset W page ≠ kFirstEntryOffset)
    (hc : IsCorruptEntryOffset (popDecrement W (NextEntryOffset W page)) pageSize = false)
    (hoob : ¬popDecrement W (NextEntryOffset W page) + 8 ≤ pageSize) :
    Pop W pageSize l s =
      ⟨Status.kOutOfBoundsAccess, kInvalidPageId W, l, s,
       [(l.head_page_id_, FetchMode.kFetchPageData)]⟩ := by
  unfold Pop
  rw [if_neg hne, hfetch]
  dsimp only
  rw [if_neg h16, if_neg (show ¬(IsCorruptEntryOffset
    (popDecrement W (NextEntryOffset W page)) pageSize = true) from by rw [hc]; simp)]
  rw [if_neg hoob]

/-- `Push` evaluation: head-page fetch failure. -/
theorem push_eval_headFetchError (W pageSize : Nat) (l : FreePageList)
    (s : PageStore) (page_id : Nat) (e : Status)
    (hne : l.head_page_id_ ≠ kInvalidPageId W)
    (he : s l.head_page_id_ = Except.error e) :
    Push W pageSize l s page_id =
      ⟨e, l, s, [(l.head_page_id_, FetchMode.kFetchPageData)]⟩ := by
  unfold Push
  rw [if_pos hne, he]

/-- `Push` evaluation: the stored offset is below `page_size` but fails
validation. -/
theorem push_eval_corrupt (W pageSize : Nat) (l : FreePageList) (s : PageStore)
    (page : PageBytes) (page_id : Nat) (hne : l.head_page_id_ ≠ kInvalidPageId W)
    (hfetch : s l.head_page_id_ = Except.ok page)
    (hroom : NextEntryOffset W page < pageSize)
    (hc : IsCorruptEntryOffset (NextEntryOffset W page) pageSize = true) :
    Push W pageSize l s page_id =
      ⟨Status.kDataCorrupted, l, s, [(l.head_page_id_, FetchMode.kFetchPageData)]⟩ := by
  unfold Push
  rw [if_pos hne, hfetch]
  dsimp only
  rw [if_pos hroom, if_pos hc]

/-- `Push` evaluation: room for one more entry. -/
theorem push_eval_entry (W pageSize : Nat) (l : FreePageList) (s : PageStore)
    (page : PageBytes) (page_id : Nat) (hne : l.head_page_id_ ≠ kInvalidPageId W)
    (hfetch : s l.head_page_id_ = Except.ok page)
    (hroom : NextEntryOffset W page < pageSize)
    (hc : IsCorruptEntryOffset (NextEntryOffset W page) pageSize = false)
    (hoob : NextEntryOffset W page + 8 ≤ pageSize) :
    Push W pageSize l s page_id =
      ⟨Status.kSuccess, l,
       setPage s l.head_page_id_
         (SetNextEntryOffset (NextEntryOffset W page + kEntrySize)
           (storeUint64 page_id page (NextEntryOffset W page))),
       [(l.head_page_id_, FetchMode.kFetchPageData)]⟩ := by
  unfold Push
  rw [if_pos hne, hfetch]
  dsimp only
  rw [if_pos hroom, if_neg (show ¬(IsCorruptEntryOffset (NextEntryOffset W page)
    pageSize = true) from by rw [hc]; simp)]
  rw [if_pos hoob]

/-- `Push` evaluation: the head page reads as full (offset at or beyond
`page_size`), so `Push` falls through to the new-head path. -/
theorem push_eval_full (W pageSize : Nat) (l : FreePageList) (s : PageStore)
    (page : PageBytes) (page_id : Nat) (hne : l.head_page_id_ ≠ kInvalidPageId W)
    (hfetch : s l.head_page_id_ = Except.ok page)
    (hfull : pageSize ≤ NextEntryOffset W page) :
    Push W pageSize l s page_id =
      pushNewHead W l s page_id [(l.head_page_id_, FetchMode.kFetchPageData)] := by
  unfold Push
  rw [if_pos hne, hfetch]
  dsimp only
  rw [if_neg (Nat.not_lt.mpr hfull)]

/-- `Push` evaluation: empty list, straight to the new-head path. -/
theorem push_eval_emptyList (W pageSize : Nat) (l : FreePageList) (s : PageStore)
    (page_id : Nat) (hempty : l.head_page_id_ = kInvalidPageId W) :
    Push W pageSize l s page_id = pushNewHead W l s page_id [] := by
  unfold Push
  rw [if_neg (show ¬l.head_page_id_ ≠ kInvalidPageId W from fun hh => hh hempty)]

/-- `pushNewHead` evaluation: the pushed page's fetch fails. -/
theorem pushNewHead_eval_error (W : Nat) (l : FreePageList) (s : PageStore)
    (page_id : Nat) (fetched : List (Nat × FetchMode)) (e : Status)
    (he : s page_id = Except.error e) :
    pushNewHead W l s page_id fetched =
      ⟨e, l, s, fetched ++ [(page_id, FetchMode.kIgnorePageData)]⟩ := by
  unfold pushNewHead
  rw [he]

/-- `pushNewHead` evaluation: the pushed page becomes the new head. -/
theorem pushNewHead_eval_ok (W : Nat) (l : FreePageList) (s : PageStore)
    (page_id : Nat) (fetched : List (Nat × FetchMode)) (buffer : PageBytes)
    (hb : s page_id = Except.ok buffer) :
    pushNewHead W l s page_id fetched =
      ⟨Status.kSuccess,
       { l with
         tail_page_id_ :=
           if l.head_page_id_ = kInvalidPageId W then page_id else l.tail_page_id_
         head_page_id_ := page_id },
       setPage s page_id
         (SetNextPageId64 l.head_page_id_
           (SetNextEntryOffset kFirstEntryOffset buffer)),
       fetched ++ [(page_id, FetchMode.kIgnorePageData)]⟩ := by
  unfold pushNewHead
  rw [hb]

/-- `mergeHeads` evaluation: one of the two head offsets fails validation. -/
theorem mergeHeads_eval_corrupt (W pageSize : Nat) (l other : FreePageList)
    (s : PageStore) (fetched : List (Nat × FetchMode)) (fc : Nat)
    (hc : (IsCorruptEntryOffset (NextEntryOffset W (getPage s l.head_page_id_)) pageSize ||
           IsCorruptEntryOffset (NextEntryOffset W (getPage s other.head_page_id_)) pageSize)
          = true) :
    mergeHeads W pageSize l other s fetched fc = (Status.kDataCorrupted, s, fetched) := by
  unfold mergeHeads
  rw [if_pos hc]

/-- Every `Pop` path either reports success or leaves the handle untouched. -/
theorem pop_success_or_unchanged (W pageSize : Nat) (l : FreePageList) (s : PageStore) :
    (Pop W pageSize l s).status = Status.kSuccess ∨ (Pop W pageSize l s).list = l := by
  unfold Pop
  repeat' (first | split | dsimp only)
  all_goals first | exact Or.inl rfl | exact Or.inr rfl

/-- Every `Push` path either reports success or leaves the handle untouched. -/
theorem push_success_or_unchanged (W pageSize : Nat) (l : FreePageList) (s : PageStore)
    (page_id : Nat) :
    (Push W pageSize l s page_id).status = Status.kSuccess ∨
      (Push W pageSize l s page_id).list = l := by
  unfold Push pushNewHead
  repeat' (first | split | dsimp only)
  all_goals first | exact Or.inl rfl | exact Or.inr rfl

/-! ### Claim theorems -/

/-- C1: Merge conservation fails on the code. With `this` = the single-page
list `exThis` and `other` = the two-page tail-tracked list `exOther`
(Case A taken at the head-merge boundary), the merge reports success, yet
fully popping the merged list yields only the ids {9, 3, 2}, while popping the
two lists independently would have yielded {2} and {9, 3, 8, 7, 4}: the full
chain built in step 1 (page 4 and its entries 7 and 8) is not reachable from
`this`'s head page, whose successor pointer was never rewritten. -/
theorem merge_caseA_multipage_loses_other_full_chain :
    (Merge 64 32 exThis exOther exStore).status = Status.kSuccess ∧
    drainIds 64 32 10 (Merge 64 32 exThis exOther exStore).self
      (Merge 64 32 exThis exOther exStore).store = some [9, 3, 2] ∧
    drainIds 64 32 10 exThis exStore = some [2] ∧
    drainIds 64 32 10 exOther exStore = some [9, 3, 8, 7, 4] ∧
    (([9, 3, 2] : List Nat) : Multiset Nat) ≠
      (([2] : List Nat) : Multiset Nat) + (([9, 3, 8, 7, 4] : List Nat) : Multiset Nat) := by
  refine ⟨by decide, by decide, by decide, by decide, by decide⟩

/-- C6: `Merge` returns `this` list's in-memory handle unchanged on every
path (success, corruption, or any fetch failure); in particular
`head_page_id_` is never changed. -/
theorem merge_never_changes_self_handle (W pageSize : Nat) (l other : FreePageList)
    (s : PageStore) :
    (Merge W pageSize l other s).self.head_page_id_ = l.head_page_id_ ∧
    (Merge W pageSize l other s).self = l := by
  exact ⟨rfl, rfl⟩

/-- C7: popping an empty, non-merged list returns success paired with
`kInvalidPageId`, leaves the handle and pool untouched, and performs no page
fetch (the fetch log is empty). -/
theorem pop_empty_returns_invalid (W pageSize : Nat) (l : FreePageList)
    (s : PageStore) (h : l.head_page_id_ = kInvalidPageId W) :
    Pop W pageSize l s = ⟨Status.kSuccess, kInvalidPageId W, l, s, []⟩ := by
  unfold Pop
  rw [if_pos h]

/-- C7 witness: the empty list at page size 32. -/
theorem pop_empty_returns_invalid_witness :
    Pop 64 32 ⟨kInvalidPageId 64, kInvalidPageId 64, true, false⟩ exStore =
      ⟨Status.kSuccess, kInvalidPageId 64,
       ⟨kInvalidPageId 64, kInvalidPageId 64, true, false⟩, exStore, []⟩ :=
  pop_empty_returns_invalid 64 32 ⟨kInvalidPageId 64, kInvalidPageId 64, true, false⟩
    exStore rfl

/-- C10: on every path (success or any error), `Merge` leaves `other`'s
in-memory `head_page_id_` and `tail_page_id_` exactly as they were; the only
field it changes is the debug lifecycle flag `was_merged_`, set on entry,
before the empty check (so it is `true` even when `other` is empty). -/
theorem merge_never_changes_other_ids (W pageSize : Nat) (l other : FreePageList)
    (s : PageStore) :
    (Merge W pageSize l other s).other.head_page_id_ = other.head_page_id_ ∧
    (Merge W pageSize l other s).other.tail_page_id_ = other.tail_page_id_ ∧
    (Merge W pageSize l other s).other.was_merged_ = true := by
  exact ⟨rfl, rfl, rfl⟩

/-- C9: whenever `Pop` or `Push` returns any non-success status (page-fetch
failure, data corruption, database-too-large, or an access the span bounds
check rejects), the in-memory handle — in particular `head_page_id_` and
`tail_page_id_` — is exactly as it was before the call. -/
theorem pop_push_error_leaves_handle (W pageSize : Nat) (l : FreePageList)
    (s : PageStore) (page_id : Nat) :
    ((Pop W pageSize l s).status ≠ Status.kSuccess → (Pop W pageSize l s).list = l) ∧
    ((Push W pageSize l s page_id).status ≠ Status.kSuccess →
      (Push W pageSize l s page_id).list = l) := by
  constructor
  · intro h
    rcases pop_success_or_unchanged W pageSize l s with hs | hl
    · exact absurd hs h
    · exact hl
  · intro h
    rcases push_success_or_unchanged W pageSize l s page_id with hs | hl
    · exact absurd hs h
    · exact hl

/-- C9 witness: a pool where every fetch fails; both operations report the
propagated error and leave the handle untouched. -/
theorem pop_push_error_leaves_handle_witness :
    (Pop 64 32 exThis (fun _ => Except.error Status.kIoError)).list = exThis ∧
    (Push 64 32 exThis (fun _ => Except.error Status.kIoError) 5).list = exThis :=
  ⟨(pop_push_error_leaves_handle 64 32 exThis (fun _ => Except.error Status.kIoError) 5).1
      (by decide),
   (pop_push_error_leaves_handle 64 32 exThis (fun _ => Except.error Status.kIoError) 5).2
      (by decide)⟩

/-- C2 counterexample: a head page whose stored `next_entry_offset` is 40,
out of range for page size 32 (and thus corrupt). `Push` does not return the
data-corruption status — it treats the page as full and succeeds — and `Pop`'s
post-decrement validation passes the decremented offset 32, after which the
8-byte entry read at offset 32 runs past the 32-byte page (the model-only
out-of-bounds status). -/
theorem corrupt_offset_not_always_detected :
    IsCorruptEntryOffset (NextEntryOffset 64 (mkPage 32 (kInvalidPageId 64) 40 [])) 32 = true ∧
    (Push 64 32 exThis exStoreOffset40 5).status = Status.kSuccess ∧
    (Push 64 32 exThis exStoreOffset40 5).status ≠ Status.kDataCorrupted ∧
    (Pop 64 32 exThis exStoreOffset40).status = Status.kOutOfBoundsAccess := by
  refine ⟨by decide, by decide, by decide, by decide⟩

/-- C3 counterexample: `Push` onto a head page whose stored
`next_entry_offset` is the unaligned value 17 fails with `kDataCorrupted`
even though its only page fetch (head page 2) succeeded — so fetch failure is
not `Push`'s only failure mode. -/
theorem push_fails_without_fetch_failure :
    exStoreOffset17 2 = Except.ok (mkPage 32 (kInvalidPageId 64) 17 []) ∧
    (Push 64 32 exThis exStoreOffset17 5).fetched = [(2, FetchMode.kFetchPageData)] ∧
    (Push 64 32 exThis exStoreOffset17 5).status = Status.kDataCorrupted ∧
    (Push 64 32 exThis exStoreOffset17 5).status ≠ Status.kSuccess := by
  refine ⟨rfl, by decide, by decide, by decide⟩

/-- C4 counterexample: `Pop` on the head page storing `next_entry_offset` 40
(= page size 32 + one entry size). The decremented offset 32 is *not* corrupt,
so the claim's final case applies and promises that the 8-byte id stored at
offset 32 is read and returned with success; instead the read runs past the
32-byte page (the C++ span bounds check rejects it — undefined behaviour in
release) and no id is returned with success. -/
theorem pop_success_branch_reads_out_of_bounds :
    exThis.head_page_id_ ≠ kInvalidPageId 64 ∧
    exStoreOffset40 2 = Except.ok (mkPage 32 (kInvalidPageId 64) 40 []) ∧
    NextEntryOffset 64 (mkPage 32 (kInvalidPageId 64) 40 []) ≠ kFirstEntryOffset ∧
    IsCorruptEntryOffset
      (NextEntryOffset 64 (mkPage 32 (kInvalidPageId 64) 40 []) - kEntrySize) 32 = false ∧
    (Pop 64 32 exThis exStoreOffset40).status ≠ Status.kSuccess ∧
    (Pop 64 32 exThis exStoreOffset40).status = Status.kOutOfBoundsAccess := by
  refine ⟨by decide, rfl, by decide, by decide, by decide, by decide⟩

/-- C4 as amended: behaviour of `Pop` on a non-empty, non-merged list whose
head page is fetched successfully and whose stored offset is not exactly
`page_size + kEntrySize` (at that one value the decremented offset passes
validation but the entry read runs out of bounds, see the counterexample).
If the offset equals `kFirstEntryOffset`, the head page's own id is returned
with success, `head_page_id_` advances to the stored `next_page_id`, and
`tail_page_id_` is also cleared exactly when that successor is
`kInvalidPageId` (with no page write). Otherwise the offset is decremented by
one entry size; if the decremented offset is corrupt, `Pop` fails with the
data-corruption status, and otherwise it returns (with success) the 8-byte id
stored at the decremented offset and persists the decremented offset to the
head page. -/
theorem pop_spec (pageSize : Nat) (l : FreePageList) (s : PageStore) (page : PageBytes)
    (h8 : 8 ∣ pageSize) (hbig : pageSize + 16 < 2 ^ 64)
    (hne : l.head_page_id_ ≠ kInvalidPageId 64)
    (hfetch : s l.head_page_id_ = Except.ok page)
    (ho : NextEntryOffset 64 page ≠ pageSize + kEntrySize) :
    (NextEntryOffset 64 page = kFirstEntryOffset →
      Pop 64 pageSize l s =
        ⟨Status.kSuccess, l.head_page_id_,
         { l with
           head_page_id_ := NextPageId64 page
           tail_page_id_ :=
             if NextPageId64 page = kInvalidPageId 64 then kInvalidPageId 64
             else l.tail_page_id_ },
         s, [(l.head_page_id_, FetchMode.kFetchPageData)]⟩) ∧
    (NextEntryOffset 64 page ≠ kFirstEntryOffset →
      (IsCorruptEntryOffset (NextEntryOffset 64 page - kEntrySize) pageSize = true →
        Pop 64 pageSize l s =
          ⟨Status.kDataCorrupted, kInvalidPageId 64, l, s,
           [(l.head_page_id_, FetchMode.kFetchPageData)]⟩) ∧
      (IsCorruptEntryOffset (NextEntryOffset 64 page - kEntrySize) pageSize = false →
        Pop 64 pageSize l s =
          ⟨Status.kSuccess, loadUint64 page (NextEntryOffset 64 page - kEntrySize), l,
           setPage s l.head_page_id_
             (SetNextEntryOffset (NextEntryOffset 64 page - kEntrySize) page),
           [(l.head_page_id_, FetchMode.kFetchPageData)]⟩)) := by
  have hlt64 : NextPageId64 page < 2 ^ 64 := loadUint64_lt_two_pow_64 page 0
  have holt : NextEntryOffset 64 page < 2 ^ 64 := nextEntryOffset_lt page
  have ho8 : NextEntryOffset 64 page ≠ pageSize + 8 := ho
  constructor
  · intro h16
    unfold Pop
    rw [if_neg hne, hfetch]
    dsimp only
    rw [if_pos h16, if_neg (show ¬(NextPageId64 page % 2 ^ 64 ≠ NextPageId64 page) from
      fun hh => hh (Nat.mod_eq_of_lt hlt64))]
    rw [Nat.mod_eq_of_lt hlt64]
  · intro h16
    constructor
    · intro hc
      unfold Pop
      rw [if_neg hne, hfetch]
      dsimp only
      rw [if_neg h16]
      by_cases h8o : 8 ≤ NextEntryOffset 64 page
      · rw [if_pos (by rw [popDecrement_64_eq _ h8o holt]; exact hc)]
      · rw [if_pos (popDecrement_64_corrupt _ _ (by omega) hbig)]
    · intro hc
      have hc8 : IsCorruptEntryOffset (NextEntryOffset 64 page - 8) pageSize = false := hc
      have hfacts := (isCorrupt_false_iff _ _).mp hc8
      have h8o : 8 ≤ NextEntryOffset 64 page := by omega
      have hpd : popDecrement 64 (NextEntryOffset 64 page) =
          NextEntryOffset 64 page - 8 := popDecrement_64_eq _ h8o holt
      have hload : loadUint64 page (NextEntryOffset 64 page - 8) < 2 ^ 64 :=
        loadUint64_lt_two_pow_64 page _
      unfold Pop
      rw [if_neg hne, hfetch]
      dsimp only
      rw [if_neg h16, hpd, if_neg (show ¬(IsCorruptEntryOffset
        (NextEntryOffset 64 page - 8) pageSize = true) from by rw [hc8]; simp)]
      rw [if_pos (show NextEntryOffset 64 page - 8 + 8 ≤ pageSize from by omega)]
      rw [if_neg (show ¬(loadUint64 page (NextEntryOffset 64 page - 8) % 2 ^ 64 ≠
        loadUint64 page (NextEntryOffset 64 page - 8)) from
        fun hh => hh (Nat.mod_eq_of_lt hload))]
      rw [Nat.mod_eq_of_lt hload]
      rfl

/-- C4 witness: popping the single-entry head page 2 returns its entry 7,
rewinds the offset to 16, and keeps the handle unchanged. -/
theorem pop_spec_witness :
    Pop 64 32 exThis exStorePop =
      ⟨Status.kSuccess, 7, exThis,
       setPage exStorePop 2 (SetNextEntryOffset 16 (mkPage 32 (kInvalidPageId 64) 24 [7])),
       [(2, FetchMode.kFetchPageData)]⟩ :=
  ((pop_spec 32 exThis exStorePop (mkPage 32 (kInvalidPageId 64) 24 [7]) (by norm_num)
      (by norm_num) (by decide) rfl (by decide)).2 (by decide)).2 (by decide)

/-- C5: behaviour of `Push` on a non-merged list and a valid page id. If the
list is non-empty and the head page has room (offset below `page_size` and not
corrupt), the id is written at the stored offset and the offset advanced by
one entry size, with the handle untouched. Otherwise — head page full, or list
empty — the pushed page itself becomes the new head: it is fetched with
`kIgnorePageData` (its prior content is not read), its header is initialized
with `next_entry_offset = kFirstEntryOffset` and `next_page_id` = the old
`head_page_id_`, `tail_page_id_` is set to `page_id` exactly when the list was
empty, and `head_page_id_` becomes `page_id`. -/
theorem push_spec (pageSize : Nat) (l : FreePageList) (s : PageStore)
    (page buffer : PageBytes) (page_id : Nat)
    (h8 : 8 ∣ pageSize) ( _hpid : page_id ≠ kInvalidPageId 64) :
    (l.head_page_id_ ≠ kInvalidPageId 64 → s l.head_page_id_ = Except.ok page →
      NextEntryOffset 64 page < pageSize →
      IsCorruptEntryOffset (NextEntryOffset 64 page) pageSize = false →
      Push 64 pageSize l s page_id =
        ⟨Status.kSuccess, l,
         setPage s l.head_page_id_
           (SetNextEntryOffset (NextEntryOffset 64 page + kEntrySize)
             (storeUint64 page_id page (NextEntryOffset 64 page))),
         [(l.head_page_id_, FetchMode.kFetchPageData)]⟩) ∧
    (l.head_page_id_ ≠ kInvalidPageId 64 → s l.head_page_id_ = Except.ok page →
      pageSize ≤ NextEntryOffset 64 page → s page_id = Except.ok buffer →
      Push 64 pageSize l s page_id =
        ⟨Status.kSuccess, { l with head_page_id_ := page_id },
         setPage s page_id
           (SetNextPageId64 l.head_page_id_
             (SetNextEntryOffset kFirstEntryOffset buffer)),
         [(l.head_page_id_, FetchMode.kFetchPageData),
          (page_id, FetchMode.kIgnorePageData)]⟩) ∧
    (l.head_page_id_ = kInvalidPageId 64 → s page_id = Except.ok buffer →
      Push 64 pageSize l s page_id =
        ⟨Status.kSuccess,
         { l with tail_page_id_ := page_id, head_page_id_ := page_id },
         setPage s page_id
           (SetNextPageId64 l.head_page_id_
             (SetNextEntryOffset kFirstEntryOffset buffer)),
         [(page_id, FetchMode.kIgnorePageData)]⟩) := by
  refine ⟨?_, ?_, ?_⟩
  · intro hne hfetch hroom hc
    have hfacts := (isCorrupt_false_iff _ _).mp hc
    exact push_eval_entry 64 pageSize l s page page_id hne hfetch hroom hc (by omega)
  · intro hne hfetch hfull hbuf
    rw [push_eval_full 64 pageSize l s page page_id hne hfetch hfull,
      pushNewHead_eval_ok 64 l s page_id _ buffer hbuf, if_neg hne]
    rfl
  · intro hempty hbuf
    rw [push_eval_emptyList 64 pageSize l s page_id hempty,
      pushNewHead_eval_ok 64 l s page_id _ buffer hbuf, if_pos hempty]
    rfl

/-- C5 witness: pushing id 5 into the one-entry head page 2 writes the entry
at offset 24 and persists offset 32, leaving the handle unchanged. -/
theorem push_spec_witness :
    Push 64 32 exThis exStorePush 5 =
      ⟨Status.kSuccess, exThis,
       setPage exStorePush 2
         (SetNextEntryOffset 32
           (storeUint64 5 (mkPage 32 (kInvalidPageId 64) 24 [7]) 24)),
       [(2, FetchMode.kFetchPageData)]⟩ :=
  (push_spec 32 exThis exStorePush (mkPage 32 (kInvalidPageId 64) 24 [7])
      (mkPage 32 0 0 []) 5 (by norm_num) (by decide)).1
    (by decide) rfl (by decide) (by decide)

/-- C8: on a build whose `size_t` has `W` bits, a stored 64-bit page id read
by `Pop` — the head page's `next_page_id` in the head-recycling branch, or the
8-byte entry in the entry branch — that does not fit in `W` bits makes `Pop`
return the database-too-large status paired with `kInvalidPageId`; no
truncated id is returned and nothing is written. -/
theorem pop_database_too_large (W pageSize : Nat) (l : FreePageList) (s : PageStore)
    (page : PageBytes)
    (hne : l.head_page_id_ ≠ kInvalidPageId W)
    (hfetch : s l.head_page_id_ = Except.ok page) :
    (NextEntryOffset W page = kFirstEntryOffset → 2 ^ W ≤ NextPageId64 page →
      Pop W pageSize l s =
        ⟨Status.kDatabaseTooLarge, kInvalidPageId W, l, s,
         [(l.head_page_id_, FetchMode.kFetchPageData)]⟩) ∧
    (NextEntryOffset W page ≠ kFirstEntryOffset →
      IsCorruptEntryOffset (popDecrement W (NextEntryOffset W page)) pageSize = false →
      popDecrement W (NextEntryOffset W page) + 8 ≤ pageSize →
      2 ^ W ≤ loadUint64 page (popDecrement W (NextEntryOffset W page)) →
      Pop W pageSize l s =
        ⟨Status.kDatabaseTooLarge, kInvalidPageId W, l, s,
         [(l.head_page_id_, FetchMode.kFetchPageData)]⟩) := by
  have hpow : 0 < 2 ^ W := pow_pos (by norm_num) W
  constructor
  · intro h16 hv
    unfold Pop
    rw [if_neg hne, hfetch]
    dsimp only
    rw [if_pos h16, if_pos (Nat.ne_of_lt (lt_of_lt_of_le (Nat.mod_lt _ hpow) hv))]
  · intro h16 hcor hoob hv
    unfold Pop
    rw [if_neg hne, hfetch]
    dsimp only
    rw [if_neg h16, if_neg (show ¬(IsCorruptEntryOffset
      (popDecrement W (NextEntryOffset W page)) pageSize = true) from by rw [hcor]; simp)]
    rw [if_pos hoob, if_pos (Nat.ne_of_lt (lt_of_lt_of_le (Nat.mod_lt _ hpow) hv))]

/-- C8 witness: on a 32-bit build (`W = 32`), a stored successor id `2^40`
makes `Pop` fail with the database-too-large status and `kInvalidPageId`. -/
theorem pop_database_too_large_witness :
    2 ^ 32 ≤ NextPageId64 (mkPage 32 (2 ^ 40) 16 []) ∧
    Pop 32 32 exThis exStoreWide =
      ⟨Status.kDatabaseTooLarge, kInvalidPageId 32, exThis, exStoreWide,
       [(2, FetchMode.kFetchPageData)]⟩ :=
  ⟨by decide,
   (pop_database_too_large 32 32 exThis exStoreWide (mkPage 32 (2 ^ 40) 16 [])
      (by decide) rfl).1 (by decide) (by decide)⟩

/-- C3 as amended: `Push` returns a non-success status only when an underlying
page fetch fails (the status is then exactly the fetch's error) or when the
head page's stored `next_entry_offset` is below `page_size` but fails
validation, in which case the status is the data-corruption error. -/
theorem push_failure_modes (pageSize : Nat) (l : FreePageList) (s : PageStore)
    (page_id : Nat) (h8 : 8 ∣ pageSize)
    (hr : (Push 64 pageSize l s page_id).status ≠ Status.kSuccess) :
    (l.head_page_id_ ≠ kInvalidPageId 64 ∧
      s l.head_page_id_ = Except.error (Push 64 pageSize l s page_id).status) ∨
    s page_id = Except.error (Push 64 pageSize l s page_id).status ∨
    ((Push 64 pageSize l s page_id).status = Status.kDataCorrupted ∧
      ∃ page, s l.head_page_id_ = Except.ok page ∧
        NextEntryOffset 64 page < pageSize ∧
        IsCorruptEntryOffset (NextEntryOffset 64 page) pageSize = true) := by
  by_cases hne : l.head_page_id_ = kInvalidPageId 64
  · rw [push_eval_emptyList 64 pageSize l s page_id hne] at hr ⊢
    cases hb : s page_id with
    | error e =>
        rw [pushNewHead_eval_error 64 l s page_id [] e hb]
        exact Or.inr (Or.inl rfl)
    | ok buffer =>
        rw [pushNewHead_eval_ok 64 l s page_id [] buffer hb] at hr
        exact absurd rfl hr
  · cases hfetch : s l.head_page_id_ with
    | error e =>
        rw [push_eval_headFetchError 64 pageSize l s page_id e hne hfetch]
        exact Or.inl ⟨hne, rfl⟩
    | ok page =>
        by_cases hroom : NextEntryOffset 64 page < pageSize
        · cases hc : IsCorruptEntryOffset (NextEntryOffset 64 page) pageSize with
          | true =>
              rw [push_eval_corrupt 64 pageSize l s page page_id hne hfetch hroom hc]
              exact Or.inr (Or.inr ⟨rfl, page, rfl, hroom, hc⟩)
          | false =>
              have hfacts := (isCorrupt_false_iff _ _).mp hc
              rw [push_eval_entry 64 pageSize l s page page_id hne hfetch hroom hc
                (by omega)] at hr
              exact absurd rfl hr
        · have hfull : pageSize ≤ NextEntryOffset 64 page := Nat.le_of_not_lt hroom
          rw [push_eval_full 64 pageSize l s page page_id hne hfetch hfull] at hr ⊢
          cases hb : s page_id with
          | error e =>
              rw [pushNewHead_eval_error 64 l s page_id _ e hb]
              exact Or.inr (Or.inl rfl)
          | ok buffer =>
              rw [pushNewHead_eval_ok 64 l s page_id _ buffer hb] at hr
              exact absurd rfl hr

/-- C3 amended-claim witness: with every fetch failing, `Push` reports the
propagated fetch error. -/
theorem push_failure_modes_witness :
    (exThis.head_page_id_ ≠ kInvalidPageId 64 ∧
      exStoreErr exThis.head_page_id_ =
        Except.error (Push 64 32 exThis exStoreErr 5).status) ∨
    exStoreErr 5 = Except.error (Push 64 32 exThis exStoreErr 5).status ∨
    ((Push 64 32 exThis exStoreErr 5).status = Status.kDataCorrupted ∧
      ∃ page, exStoreErr exThis.head_page_id_ = Except.ok page ∧
        NextEntryOffset 64 page < 32 ∧
        IsCorruptEntryOffset (NextEntryOffset 64 page) 32 = true) :=
  push_failure_modes 32 exThis exStoreErr 5 (by norm_num) (by decide)

/-- C2 as amended: for a list page whose stored `next_entry_offset` fails
validation (unaligned or out of range): `Pop` on it as the head returns the
data-corruption status — except when the stored offset is exactly
`page_size + kEntrySize`, where the post-decrement validation passes the
offset `page_size` and the 8-byte entry read runs out of bounds; `Push` on it
as the head returns the data-corruption status when the stored offset is
below `page_size`, and otherwise treats the head page as full and
successfully installs the pushed page as the new head (without reading
through the offset); `Merge` validates the offsets of the two head pages and
returns the data-corruption status when the corrupt page is either list's
head, but a page that `Merge` touches only as `other`'s tail is never
validated (only its `next_page_id` is rewritten), so a corrupt tail page can
pass through a successful merge (final conjunct, concrete). -/
theorem corrupt_offset_behavior (pageSize : Nat) (l other : FreePageList)
    (s : PageStore) (page opage tpage buffer : PageBytes) (page_id : Nat)
    (h8 : 8 ∣ pageSize) (h32 : 32 ≤ pageSize) (hbig : pageSize + 16 < 2 ^ 64)
    (hne : l.head_page_id_ ≠ kInvalidPageId 64)
    (hfetch : s l.head_page_id_ = Except.ok page) :
    (IsCorruptEntryOffset (NextEntryOffset 64 page) pageSize = true →
      NextEntryOffset 64 page ≠ pageSize + kEntrySize →
      Pop 64 pageSize l s =
        ⟨Status.kDataCorrupted, kInvalidPageId 64, l, s,
         [(l.head_page_id_, FetchMode.kFetchPageData)]⟩) ∧
    (IsCorruptEntryOffset (NextEntryOffset 64 page) pageSize = true →
      NextEntryOffset 64 page = pageSize + kEntrySize →
      Pop 64 pageSize l s =
        ⟨Status.kOutOfBoundsAccess, kInvalidPageId 64, l, s,
         [(l.head_page_id_, FetchMode.kFetchPageData)]⟩) ∧
    (IsCorruptEntryOffset (NextEntryOffset 64 page) pageSize = true →
      NextEntryOffset 64 page < pageSize →
      Push 64 pageSize l s page_id =
        ⟨Status.kDataCorrupted, l, s, [(l.head_page_id_, FetchMode.kFetchPageData)]⟩) ∧
    (IsCorruptEntryOffset (NextEntryOffset 64 page) pageSize = true →
      pageSize ≤ NextEntryOffset 64 page → s page_id = Except.ok buffer →
      (Push 64 pageSize l s page_id).status = Status.kSuccess) ∧
    (IsCorruptEntryOffset (NextEntryOffset 64 page) pageSize = true →
      other.head_page_id_ ≠ kInvalidPageId 64 →
      s other.head_page_id_ = Except.ok opage →
      (other.tail_page_id_ ≠ other.head_page_id_ →
        s other.tail_page_id_ = Except.ok tpage) →
      (Merge 64 pageSize l other s).status = Status.kDataCorrupted) ∧
    (IsCorruptEntryOffset (NextEntryOffset 64 opage) pageSize = true →
      other.head_page_id_ ≠ kInvalidPageId 64 →
      s other.head_page_id_ = Except.ok opage →
      (other.tail_page_id_ ≠ other.head_page_id_ →
        s other.tail_page_id_ = Except.ok tpage) →
      (Merge 64 pageSize l other s).status = Status.kDataCorrupted) ∧
    (IsCorruptEntryOffset
        (NextEntryOffset 64 (mkPage 32 (kInvalidPageId 64) 17 [])) 32 = true ∧
      (Merge 64 32 exThis exOther exStoreCorruptTail).status = Status.kSuccess) := by
  have holt : NextEntryOffset 64 page < 2 ^ 64 := nextEntryOffset_lt page
  refine ⟨?_, ?_, ?_, ?_, ?_, ?_, by decide, by decide⟩
  · intro hcor hnePS
    have h16 : NextEntryOffset 64 page ≠ kFirstEntryOffset := by
      rw [isCorrupt_true_iff] at hcor
      unfold kFirstEntryOffset
      omega
    exact pop_eval_corrupt 64 pageSize l s page hne hfetch h16
      (corrupt_decrement _ _ h8 hbig holt hcor hnePS)
  · intro hcor heq
    have hk : kEntrySize = 8 := rfl
    have h16 : NextEntryOffset 64 page ≠ kFirstEntryOffset := by
      unfold kFirstEntryOffset
      omega
    have hpd : popDecrement 64 (NextEntryOffset 64 page) = pageSize := by
      rw [popDecrement_64_eq _ (by omega) holt, heq]
      omega
    exact pop_eval_oob 64 pageSize l s page hne hfetch h16
      (by
        rw [hpd]
        exact (isCorrupt_false_iff _ _).mpr ⟨by omega, Nat.le_refl _, by omega⟩)
      (by rw [hpd]; omega)
  · intro hcor hroom
    exact push_eval_corrupt 64 pageSize l s page page_id hne hfetch hroom hcor
  · intro _hcor hfull hbuf
    rw [push_eval_full 64 pageSize l s page page_id hne hfetch hfull,
      pushNewHead_eval_ok 64 l s page_id _ buffer hbuf]
  · intro hcor hone hof hotail
    show (mergeCore 64 pageSize l { other with was_merged_ := true } s).1 =
      Status.kDataCorrupted
    unfold mergeCore
    dsimp only
    rw [if_neg hone, hfetch]
    dsimp only
    rw [hof]
    dsimp only
    by_cases hsingle : other.tail_page_id_ = other.head_page_id_
    · rw [if_neg (show ¬other.tail_page_id_ ≠ other.head_page_id_ from
        fun hh => hh hsingle)]
      rw [mergeHeads_eval_corrupt 64 pageSize l _ s _ _
        (by rw [getPage_eq s l.head_page_id_ page hfetch, hcor]; rfl)]
    · rw [if_pos hsingle]
      have htp := hotail hsingle
      rw [htp]
      dsimp only
      by_cases halias : l.head_page_id_ = other.tail_page_id_
      · have hpage : tpage = page := by
          rw [halias] at hfetch
          rw [hfetch] at htp
          injection htp with hh
          exact hh.symm
        rw [mergeHeads_eval_corrupt 64 pageSize l _ _ _ _
          (by
            rw [halias, getPage_setPage_eq, nextEntryOffset_setNextPageId64, hpage, hcor]
            rfl)]
      · rw [mergeHeads_eval_corrupt 64 pageSize l _ _ _ _
          (by
            rw [getPage_setPage_ne s other.tail_page_id_ _ l.head_page_id_ halias,
              getPage_eq s l.head_page_id_ page hfetch, hcor]
            rfl)]
  · intro hCO hone hof hotail
    show (mergeCore 64 pageSize l { other with was_merged_ := true } s).1 =
      Status.kDataCorrupted
    unfold mergeCore
    dsimp only
    rw [if_neg hone, hfetch]
    dsimp only
    rw [hof]
    dsimp only
    by_cases hsingle : other.tail_page_id_ = other.head_page_id_
    · rw [if_neg (show ¬other.tail_page_id_ ≠ other.head_page_id_ from
        fun hh => hh hsingle)]
      rw [mergeHeads_eval_corrupt 64 pageSize l _ s _ _
        (by rw [getPage_eq s other.head_page_id_ opage hof, hCO, Bool.or_true])]
    · rw [if_pos hsingle]
      have htp := hotail hsingle
      rw [htp]
      dsimp only
      rw [mergeHeads_eval_corrupt 64 pageSize l _ _ _ _
        (by
          rw [getPage_setPage_ne s other.tail_page_id_ _ other.head_page_id_
              (fun hh => hsingle hh.symm),
            getPage_eq s other.head_page_id_ opage hof, hCO, Bool.or_true])]

/-- C2 amended-claim witness: the out-of-range offset 40 on page 2 at page
size 32, with `other` the single-page list with head page 5. -/
theorem corrupt_offset_behavior_witness :
    (IsCorruptEntryOffset
        (NextEntryOffset 64 (mkPage 32 (kInvalidPageId 64) 40 [])) 32 = true →
      NextEntryOffset 64 (mkPage 32 (kInvalidPageId 64) 40 []) ≠ 32 + kEntrySize →
      Pop 64 32 exThis exStoreOffset40 =
        ⟨Status.kDataCorrupted, kInvalidPageId 64, exThis, exStoreOffset40,
         [(2, FetchMode.kFetchPageData)]⟩) ∧
    (IsCorruptEntryOffset
        (NextEntryOffset 64 (mkPage 32 (kInvalidPageId 64) 40 [])) 32 = true →
      NextEntryOffset 64 (mkPage 32 (kInvalidPageId 64) 40 []) = 32 + kEntrySize →
      Pop 64 32 exThis exStoreOffset40 =
        ⟨Status.kOutOfBoundsAccess, kInvalidPageId 64, exThis, exStoreOffset40,
         [(2, FetchMode.kFetchPageData)]⟩) ∧
    (IsCorruptEntryOffset
        (NextEntryOffset 64 (mkPage 32 (kInvalidPageId 64) 40 [])) 32 = true →
      NextEntryOffset 64 (mkPage 32 (kInvalidPageId 64) 40 []) < 32 →
      Push 64 32 exThis exStoreOffset40 5 =
        ⟨Status.kDataCorrupted, exThis, exStoreOffset40,
         [(2, FetchMode.kFetchPageData)]⟩) ∧
    (IsCorruptEntryOffset
        (NextEntryOffset 64 (mkPage 32 (kInvalidPageId 64) 40 [])) 32 = true →
      32 ≤ NextEntryOffset 64 (mkPage 32 (kInvalidPageId 64) 40 []) →
      exStoreOffset40 5 = Except.ok (mkPage 32 (kInvalidPageId 64) 16 []) →
      (Push 64 32 exThis exStoreOffset40 5).status = Status.kSuccess) ∧
    (IsCorruptEntryOffset
        (NextEntryOffset 64 (mkPage 32 (kInvalidPageId 64) 40 [])) 32 = true →
      (⟨5, 5, true, false⟩ : FreePageList).head_page_id_ ≠ kInvalidPageId 64 →
      exStoreOffset40 (⟨5, 5, true, false⟩ : FreePageList).head_page_id_ =
        Except.ok (mkPage 32 (kInvalidPageId 64) 16 []) →
      ((⟨5, 5, true, false⟩ : FreePageList).tail_page_id_ ≠
          (⟨5, 5, true, false⟩ : FreePageList).head_page_id_ →
        exStoreOffset40 (⟨5, 5, true, false⟩ : FreePageList).tail_page_id_ =
          Except.ok (mkPage 32 (kInvalidPageId 64) 16 [])) →
      (Merge 64 32 exThis ⟨5, 5, true, false⟩ exStoreOffset40).status =
        Status.kDataCorrupted) ∧
    (IsCorruptEntryOffset
        (NextEntryOffset 64 (mkPage 32 (kInvalidPageId 64) 16 [])) 32 = true →
      (⟨5, 5, true, false⟩ : FreePageList).head_page_id_ ≠ kInvalidPageId 64 →
      exStoreOffset40 (⟨5, 5, true, false⟩ : FreePageList).head_page_id_ =
        Except.ok (mkPage 32 (kInvalidPageId 64) 16 []) →
      ((⟨5, 5, true, false⟩ : FreePageList).tail_page_id_ ≠
          (⟨5, 5, true, false⟩ : FreePageList).head_page_id_ →
        exStoreOffset40 (⟨5, 5, true, false⟩ : FreePageList).tail_page_id_ =
          Except.ok (mkPage 32 (kInvalidPageId 64) 16 [])) →
      (Merge 64 32 exThis ⟨5, 5, true, false⟩ exStoreOffset40).status =
        Status.kDataCorrupted) ∧
    (IsCorruptEntryOffset
        (NextEntryOffset 64 (mkPage 32 (kInvalidPageId 64) 17 [])) 32 = true ∧
      (Merge 64 32 exThis exOther exStoreCorruptTail).status = Status.kSuccess) :=
  corrupt_offset_behavior 32 exThis ⟨5, 5, true, false⟩ exStoreOffset40
    (mkPage 32 (kInvalidPageId 64) 40 []) (mkPage 32 (kInvalidPageId 64) 16 [])
    (mkPage 32 (kInvalidPageId 64) 16 []) (mkPage 32 (kInvalidPageId 64) 16 []) 5
    (by norm_num) (by norm_num) (by norm_num) (by decide) rfl

end BerryDb
